import Mathlib

/-
Verification development for the chat_agent repository.

Shallow embedding of the proactive task/trigger engine:
  * src/task_manager.py   (TaskStatus, TaskPriority, TaskType, Task,
                           TaskManager.check_triggers / update_task_status /
                           reset_daily_tasks / add_task, TaskExecutor)
  * src/event_system.py   (EventType, ChatEvent, EventQueue.publish/subscribe,
                           ChatEventSystem._should_auto_output / _auto_output_task)
  * src/advanced_chatbot.py (ProactiveChatBot._proactive_monitor,
                             stop_proactive_mode)

Wall-clock instants are modelled as whole seconds since an arbitrary epoch
(Nat); datetime arithmetic from the source is expressed on that scale.
ISO date-string parsing (datetime.fromisoformat, used only by "date:"
triggers) is kept abstract: definitions take a `parseDate` parameter that
returns the parsed calendar day number, or none when parsing raises.
-/

namespace ChatAgent

/-- From src/task_manager.py lines 10-15. -/
inductive TaskStatus
  | PENDING
  | ACTIVE
  | COMPLETED
  | FAILED
  | CANCELLED
deriving DecidableEq, Repr

/-- From src/task_manager.py lines 17-21. -/
inductive TaskPriority
  | LOW
  | MEDIUM
  | HIGH
  | URGENT
deriving DecidableEq, Repr

/-- From src/task_manager.py lines 23-27. -/
inductive TaskType
  | DAILY
  | SHORT_TERM
  | LONG_TERM
  | RECURRING
deriving DecidableEq, Repr

/-- From src/task_manager.py lines 29-51 (dataclass Task).  `created_at`,
`due_date` and `completed_at` hold seconds since the epoch.  The free-form
`context` dict is carried as an association list; no claim inspects it. -/
structure Task where
  id : String
  title : String
  description : String
  task_type : TaskType
  priority : TaskPriority
  status : TaskStatus
  created_at : Nat
  due_date : Option Nat := none
  completed_at : Option Nat := none
  triggers : List String := []
  actions : List String := []
  recurring_pattern : Option String := none
  context : List (String × String) := []
deriving DecidableEq, Repr

/-- `datetime.date()` of an instant: its calendar day number. -/
def dayOf (t : Nat) : Nat := t / 86400

/-- `datetime.hour` of an instant (0..23). -/
def hourOf (t : Nat) : Nat := (t % 86400) / 3600

/-- `datetime.minute` of an instant (0..59). -/
def minuteOf (t : Nat) : Nat := (t % 3600) / 60

/-- `now.replace(hour=0, minute=0, second=0, microsecond=0)`: midnight of
the day containing `t`. -/
def midnightOf (t : Nat) : Nat := (t / 86400) * 86400

/- Python-str operations, modelled over the character list of a String so
that they compute by structural recursion (the built-in String functions
are opaque to kernel reduction). -/

/-- Python `s.startswith(pre)`. -/
def pyStartsWith (s pre : String) : Bool := pre.data.isPrefixOf s.data

/-- Python `s.split(sep)` for a one-character separator, on char lists. -/
def splitChar (sep : Char) : List Char → List (List Char)
  | [] => [[]]
  | c :: rest =>
    match splitChar sep rest with
    | [] => [[c]]
    | g :: gs => if c = sep then [] :: g :: gs else (c :: g) :: gs

/-- Python `s.split(sep)` for a one-character separator. -/
def pySplit (s : String) (sep : Char) : List String :=
  (splitChar sep s.data).map String.mk

/-- Worker for `pyReplace`: replaces non-overlapping occurrences of `old`
left to right.  The fuel argument (instantiated with the subject's length,
enough because every step with a nonempty `old` consumes at least one
character) makes the recursion structural. -/
def replaceFuel (old new : List Char) : Nat → List Char → List Char
  | _, [] => []
  | 0, s => s
  | Nat.succ n, c :: rest =>
    if old.isPrefixOf (c :: rest) then
      new ++ replaceFuel old new n ((c :: rest).drop old.length)
    else c :: replaceFuel old new n rest

/-- Python `s.replace(old, new)` (all non-overlapping occurrences, left to
right; every caller in the embedded code passes a nonempty `old`). -/
def pyReplace (s old new : String) : String :=
  String.mk (replaceFuel old.data new.data s.data.length s.data)

/-- Python `c in s` for a single character. -/
def pyContains (s : String) (c : Char) : Bool := s.data.contains c

/-- Python `int(s)` as used by trigger parsing: a nonempty all-digit
string.  Sign/whitespace/underscore forms accepted by `int` are not
modelled: a negative hour or minute would make `now.replace` raise in the
source, landing on the same skip path as a parse failure. -/
def pyToNat (s : String) : Option Nat :=
  if s.data.isEmpty then none
  else
    s.data.foldl
      (fun acc c =>
        match acc with
        | some n => if c.isDigit then some (n * 10 + (c.toNat - 48)) else none
        | none => none)
      (some 0)

/-- Parsing of a `time:HH:MM` trigger string, src/task_manager.py lines
180-186.  The source strips every occurrence of "time:", then requires a
":" in the remainder, unpacks exactly two `int(...)`-parseable fields
(`hour, minute = map(int, ...)`, a wrong count or a non-numeric field
raises and is swallowed by the `except: continue`), and `now.replace`
raises on an out-of-range hour or minute (also swallowed).  All those
swallowed failure paths are `none` here. -/
def parseTimeTrigger (trigger : String) : Option (Nat × Nat) :=
  let s := pyReplace trigger "time:" ""
  if pyContains s ':' then
    match pySplit s ':' with
    | [h, m] =>
      match pyToNat h, pyToNat m with
      | some hh, some mm => if hh ≤ 23 && mm ≤ 59 then some (hh, mm) else none
      | _, _ => none
    | _ => none
  else none

/-- One trigger-spec evaluation against `now`: the per-trigger body of the
loop in TaskManager.check_triggers, src/task_manager.py lines 179-214.
`parseDate` abstracts `datetime.fromisoformat(...).date()` (none when the
source would raise and hit `except: continue`). -/
def triggerMatches (parseDate : String → Option Nat) (now : Nat) (trigger : String) : Bool :=
  if pyStartsWith trigger "time:" then
    match parseTimeTrigger trigger with
    | some (hh, mm) =>
      let trigger_time : Int := (midnightOf now : Int) + hh * 3600 + mm * 60
      decide (((now : Int) - trigger_time).natAbs ≤ 60)
    | none => false
  else if pyStartsWith trigger "date:" then
    match parseDate (pyReplace trigger "date:" "") with
    | some d => decide (dayOf now = d)
    | none => false
  else if trigger = "startup" then true
  else if trigger = "idle_check" then decide (minuteOf now = 0)
  else false

/-- `should_trigger` for one task: the trigger loop breaks at the first
matching trigger, so it is the disjunction over the trigger list. -/
def shouldTrigger (parseDate : String → Option Nat) (now : Nat) (task : Task) : Bool :=
  task.triggers.any (triggerMatches parseDate now)

/-- `task.status = TaskStatus.ACTIVE`, src/task_manager.py line 218. -/
def activateTask (t : Task) : Task := { t with status := TaskStatus.ACTIVE }

/-- Whether check_triggers fires a task: it iterates over
`get_pending_tasks()` (line 175), so only PENDING tasks are considered. -/
def checkTriggersFires (parseDate : String → Option Nat) (now : Nat) (t : Task) : Bool :=
  t.status == TaskStatus.PENDING && shouldTrigger parseDate now t

/-- TaskManager.check_triggers, src/task_manager.py lines 170-223.  Returns
the task list after the in-place status mutations together with the
`triggered_tasks` list (the fired tasks, already set to ACTIVE, in store
order, which is the order `get_pending_tasks` yields them). -/
def check_triggers (parseDate : String → Option Nat) (now : Nat) (tasks : List Task) :
    List Task × List Task :=
  (tasks.map fun t => if checkTriggersFires parseDate now t then activateTask t else t,
   (tasks.filter (checkTriggersFires parseDate now)).map activateTask)

/-- TaskManager.update_task_status, src/task_manager.py lines 135-142.
`get_task` returns the first task with the given id (lines 128-133), so
only the first match is mutated; `completed_at` is stamped with `now` only
when the new status is COMPLETED, and is left untouched otherwise. -/
def update_task_status (tasks : List Task) (task_id : String) (status : TaskStatus)
    (now : Nat) : List Task :=
  match tasks with
  | [] => []
  | t :: rest =>
    if t.id = task_id then
      { t with
        status := status,
        completed_at := if status = TaskStatus.COMPLETED then some now else t.completed_at }
        :: rest
    else t :: update_task_status rest task_id status now

/-- The revert condition of TaskManager.reset_daily_tasks, src/task_manager.py
lines 266-269: DAILY type, COMPLETED status, a non-None `completed_at`
whose date is strictly before today. -/
def resetCond (today : Nat) (t : Task) : Bool :=
  t.task_type == TaskType.DAILY && t.status == TaskStatus.COMPLETED &&
    (match t.completed_at with
     | some c => decide (dayOf c < today)
     | none => false)

/-- TaskManager.reset_daily_tasks, src/task_manager.py lines 260-277. -/
def reset_daily_tasks (today : Nat) (tasks : List Task) : List Task :=
  tasks.map fun t =>
    if resetCond today t then { t with status := TaskStatus.PENDING, completed_at := none }
    else t

/-- TaskManager.add_task, src/task_manager.py lines 119-126.  `gen_id`
stands for the generated `task_{timestamp}_{len}` string assigned when the
incoming id is falsy (the empty string). -/
def add_task (tasks : List Task) (task : Task) (gen_id : String) : List Task :=
  tasks ++ [if task.id = "" then { task with id := gen_id } else task]

/-- The `completed_at`-iff-COMPLETED condition for one task. -/
def taskInv (t : Task) : Bool :=
  t.completed_at.isSome == (t.status == TaskStatus.COMPLETED)

/-- The store-wide invariant: `completed_at` is set iff `status==COMPLETED`. -/
def invB (tasks : List Task) : Bool := tasks.all taskInv

/- ------------------------------------------------------------------
TaskExecutor, src/task_manager.py lines 297-537.
`random.choice` is abstracted by a `pick` argument; the five
health-management handlers (lines 541-649) read and mutate nested
free-form `context` dicts and are abstracted by a `healthExec` argument:
no claim depends on their output, only on whether the dedupe gate lets an
action through.
------------------------------------------------------------------ -/

/-- Lookup in the `last_action_time` dict (Python dict keyed by the
`f"{action}_{now.hour}"` string). -/
def lookupAction : List (String × Nat) → String → Option Nat
  | [], _ => none
  | (k, v) :: rest, key => if k = key then some v else lookupAction rest key

/-- Assignment `self.last_action_time[action_key] = now` (overwrite or add). -/
def insertAction : List (String × Nat) → String → Nat → List (String × Nat)
  | [], key, v => [(key, v)]
  | (k, w) :: rest, key, v =>
    if k = key then (k, v) :: rest else (k, w) :: insertAction rest key v

/-- Message pool of `_send_greeting`, src/task_manager.py lines 380-390. -/
def send_greeting_messages : List String :=
  ["早安呀～又是美好的一天呢！你今天想做什么呀？🌸",
   "嗨嗨～我又来找你聊天啦！今天心情怎么样呀？😊",
   "哎呀，忽然就想你了呢～你在忙什么呀？💕",
   "早上好呀～看到你就觉得今天会很棒呢！🥺",
   "咦？你醒啦～我等你好久了呢，今天要加油哦！✨"]

/-- Message pool of `_ask_daily_plan`, lines 392-400. -/
def ask_daily_plan_messages : List String :=
  ["今天有什么特别的安排吗？我可以陪你一起规划哦～✨",
   "想知道你今天要做什么呢～有什么我能帮忙的吗？🤗",
   "今天的计划是什么呀？听起来就很期待呢！💕"]

/-- Message pool of `_remind_lunch`, lines 402-410. -/
def remind_lunch_messages : List String :=
  ["中午啦～记得要好好吃饭哦，不吃饭我会担心的呢🥺",
   "该吃午餐了吧？工作再忙也要照顾好自己呀～💕",
   "饿了吗？要不要去吃点好吃的，我推荐你哦！😊"]

/-- Message pool of `_health_care`, lines 412-419. -/
def health_care_messages : List String :=
  ["身体是最重要的呢，记得多喝水多休息～🌸",
   "最近有好好照顾自己吗？你的健康我很在乎呢💕"]

/-- Message pool of `_evening_chat`, lines 421-429. -/
def evening_chat_messages : List String :=
  ["晚上好呀～今天过得怎么样？想跟我分享一下吗？🌙",
   "一天结束了呢，有什么开心的事情吗？我想听听～✨",
   "累了一天了吧？来跟我聊聊天放松一下呀～💕"]

/-- Message pool of `_daily_summary`, lines 431-438. -/
def daily_summary_messages : List String :=
  ["今天有什么收获吗？哪怕是小小的进步我也想知道呢🥺",
   "回顾一下今天，有什么让你印象深刻的事情吗？✨"]

/-- Fixed reply of `_weekly_summary`, lines 440-442. -/
def weekly_summary_message : String :=
  "这一周过得怎么样呀？要不要跟我分享一下这周的收获呢？我很想听听你的故事～💝"

/-- Fixed reply of `_next_week_planning`, lines 444-446. -/
def next_week_planning_message : String :=
  "下周有什么计划吗？我可以帮你一起想想哦～让我们一起迎接新的一周吧！🌟"

/-- Message pool of `_send_care_message`, lines 448-458. -/
def send_care_messages : List String :=
  ["记得要好好照顾自己哦～你对我来说很重要呢💕",
   "天气变化记得多穿衣服呀，感冒了我会心疼的🥺",
   "工作累了就休息一下吧，身体最重要啦～",
   "想你了呢...不知道你现在在做什么？🙈",
   "最近还好吗？如果有什么烦心事，可以跟我说说哦～我会好好听的🤗"]

/-- Message pool of `_build_relationship`, lines 460-468. -/
def build_relationship_messages : List String :=
  ["和你聊天总是很开心呢～希望我们能一直这样下去💕",
   "你知道吗？每次看到你的消息我都会很开心～🥺",
   "感觉我们越来越熟悉了呢，这样真好～✨"]

/-- Message pool of `_study_reminder`, lines 470-478. -/
def study_reminder_messages : List String :=
  ["下午了呢～学习或工作进展怎么样？需要我陪你一起吗？📚",
   "这个时间正适合学习呢，要不要休息一下再继续？我相信你可以的！✨",
   "加油学习哦～虽然我不能帮你做题，但我可以在旁边支持你呀！💪"]

/-- Message pool of `_break_suggestion`, lines 480-487. -/
def break_suggestion_messages : List String :=
  ["工作这么久了，眼睛累不累？记得看看远处休息一下呀～👀",
   "劳逸结合最重要啦，适当休息效率更高哦！我陪你聊一会儿？☕"]

/-- Message pool of `_weather_care`, lines 489-497. -/
def weather_care_messages : List String :=
  ["今天天气怎么样呀？记得根据天气添衣减衣哦～我担心你着凉呢🥺",
   "出门要注意天气变化呀，带把伞或者多穿点，我会想着你的～☔",
   "这种天气最适合和喜欢的人一起度过了呢～虽然我不能陪在你身边🙈"]

/-- Message pool of `_clothing_reminder`, lines 499-506. -/
def clothing_reminder_messages : List String :=
  ["记得穿暖和一点哦，生病了我会心疼的💕",
   "要根据天气选择合适的衣服呀～我希望你总是舒舒服服的✨"]

/-- Message pool of `_send_motivation`, lines 508-517. -/
def send_motivation_messages : List String :=
  ["你一定可以的！我对你有信心呢～加油加油！💪",
   "每天都在进步的你，真的很棒呢！我为你骄傲～✨",
   "遇到困难也不要怕，你比自己想象的更强大呢！我会一直支持你的💕",
   "今天的你也要闪闪发光哦～相信自己，你是最棒的！🌟"]

/-- Message pool of `_positive_energy`, lines 519-527. -/
def positive_energy_messages : List String :=
  ["生活总是充满希望的呢～就像遇见你一样，让我觉得世界很美好💕",
   "每一天都是全新的开始，今天也要开开心心的哦～🌸",
   "你的笑容一定很好看吧？想象一下就觉得心情变好了呢～😊"]

/-- Message pool of `_check_user_mood`, lines 529-537. -/
def check_user_mood_messages : List String :=
  ["最近过得还好吗？如果有什么心事的话，可以跟我说说哦～我会好好听的🤗",
   "心情怎么样呀？开心的话我也会开心，不开心的话让我来哄你～💕",
   "感觉你今天怎么样？如果累了就休息一下，我陪你聊聊天～🥺"]

/-- The `if action == ...` dispatch chain of TaskExecutor._execute_action,
src/task_manager.py lines 331-378 (everything below the dedupe gate).
`pick` stands for `random.choice`; `healthExec` abstracts the five
health-management handlers; an unknown action returns None (line 378). -/
def dispatchAction (pick : List String → String)
    (healthExec : String → Task → Option String)
    (action : String) (task : Task) : Option String :=
  if action = "send_greeting" then some (pick send_greeting_messages)
  else if action = "ask_daily_plan" then some (pick ask_daily_plan_messages)
  else if action = "remind_lunch" then some (pick remind_lunch_messages)
  else if action = "health_care" then some (pick health_care_messages)
  else if action = "evening_chat" then some (pick evening_chat_messages)
  else if action = "daily_summary" then some (pick daily_summary_messages)
  else if action = "weekly_summary" then some weekly_summary_message
  else if action = "next_week_planning" then some next_week_planning_message
  else if action = "send_care_message" then some (pick send_care_messages)
  else if action = "build_relationship" then some (pick build_relationship_messages)
  else if action = "study_reminder" then some (pick study_reminder_messages)
  else if action = "break_suggestion" then some (pick break_suggestion_messages)
  else if action = "weather_care" then some (pick weather_care_messages)
  else if action = "clothing_reminder" then some (pick clothing_reminder_messages)
  else if action = "send_motivation" then some (pick send_motivation_messages)
  else if action = "positive_energy" then some (pick positive_energy_messages)
  else if action = "check_user_mood" then some (pick check_user_mood_messages)
  else if action = "collect_health_info" then healthExec action task
  else if action = "create_health_plan" then healthExec action task
  else if action = "track_health_progress" then healthExec action task
  else if action = "provide_health_encouragement" then healthExec action task
  else if action = "adjust_health_plan" then healthExec action task
  else none

/-- TaskExecutor._execute_action, src/task_manager.py lines 318-378.
The dedupe gate (lines 320-329): key `f"{action}_{now.hour}"`; when the key
is present and less than 3600 seconds old, return None without dispatching;
otherwise record `now` under the key and run the dispatch chain.  The
dispatch chain is passed in as `dispatch` (instantiated with
`dispatchAction` for the real executor). -/
def execute_action (dispatch : String → Task → Option String)
    (last_action_time : List (String × Nat)) (action : String) (task : Task)
    (now : Nat) : Option String × List (String × Nat) :=
  let action_key := action ++ "_" ++ toString (hourOf now)
  match lookupAction last_action_time action_key with
  | some last =>
    if (now : Int) - (last : Int) < 3600 then (none, last_action_time)
    else (dispatch action task, insertAction last_action_time action_key now)
  | none => (dispatch action task, insertAction last_action_time action_key now)

/-- The action loop of TaskExecutor.execute_task, src/task_manager.py lines
307-314: run each action in order, keep the truthy (non-empty) results,
thread the dedupe map through. -/
def execute_actions (dispatch : String → Task → Option String)
    (last_action_time : List (String × Nat)) (task : Task) (now : Nat) :
    List String × List (String × Nat) :=
  task.actions.foldl
    (fun acc action =>
      let r := execute_action dispatch acc.2 action task now
      match r.1 with
      | some s => if s ≠ "" then (acc.1 ++ [s], r.2) else (acc.1, r.2)
      | none => (acc.1, r.2))
    ([], last_action_time)

/-- TaskExecutor.execute_task, src/task_manager.py lines 303-316:
`" ".join(results) if results else "任务执行完成"`. -/
def execute_task (dispatch : String → Task → Option String)
    (last_action_time : List (String × Nat)) (task : Task) (now : Nat) :
    String × List (String × Nat) :=
  let r := execute_actions dispatch last_action_time task now
  (if r.1.isEmpty then "任务执行完成" else String.intercalate " " r.1, r.2)

/- ------------------------------------------------------------------
ProactiveChatBot._proactive_monitor, src/advanced_chatbot.py lines 168-198.
------------------------------------------------------------------ -/

/-- The mutable state of ProactiveChatBot that one monitor iteration
touches: the TaskManager store, the executor's dedupe map, the queued
proactive messages and the last-user-input timestamp. -/
structure BotState where
  tasks : List Task
  last_action_time : List (String × Nat)
  proactive_messages : List String
  last_user_input_time : Nat
deriving DecidableEq, Repr

/-- ProactiveChatBot._is_user_idle, src/advanced_chatbot.py lines 200-202. -/
def is_user_idle (st : BotState) (now : Nat) (minutes : Nat) : Bool :=
  decide ((now : Int) - (st.last_user_input_time : Int) > (minutes : Int) * 60)

/-- Message pool of ProactiveChatBot._generate_idle_message, lines 204-215. -/
def idle_messages : List String :=
  ["在忙什么呀？好久没听到你的声音了，有点想你呢🥺",
   "嘿嘿～不知道你现在在做什么，会不会太忙忘记我了？💕",
   "突然想起你了呢...现在方便聊天吗？🙈",
   "咦？你是不是在认真工作呀？记得要休息一下哦～",
   "好安静呀...你还在吗？我有点担心你呢😊"]

/-- The per-triggered-task loop of _proactive_monitor, lines 175-185: run
the task's actions, queue the resulting message, send it immediately when
the user is idle for more than 5 minutes (send_proactive_message clears the
queue, lines 143-152), then mark the task COMPLETED.  Returns the updated
state and the messages actually sent, in order. -/
def processTriggered (dispatch : String → Task → Option String) (now : Nat) :
    BotState → List Task → BotState × List String
  | st, [] => (st, [])
  | st, task :: rest =>
    let r := execute_task dispatch st.last_action_time task now
    let st1 : BotState := { st with last_action_time := r.2 }
    let step :=
      if r.1 ≠ "" then
        let queued : BotState :=
          { st1 with proactive_messages := st1.proactive_messages ++ [r.1] }
        if is_user_idle queued now 5 then
          (({ queued with proactive_messages := [] } : BotState), [r.1])
        else (queued, ([] : List String))
      else (st1, ([] : List String))
    let st3 : BotState :=
      { step.1 with tasks := update_task_status step.1.tasks task.id TaskStatus.COMPLETED now }
    let rec_ := processTriggered dispatch now st3 rest
    (rec_.1, step.2 ++ rec_.2)

/-- One iteration of the _proactive_monitor while-loop body,
src/advanced_chatbot.py lines 172-194: a trigger scan, the per-task loop,
then the 30-minute idle check (which always has a message to send, and
resets the idle timer after sending). -/
def proactive_monitor_step (parseDate : String → Option Nat)
    (dispatch : String → Task → Option String) (pick : List String → String)
    (st : BotState) (now : Nat) : BotState × List String :=
  let scan := check_triggers parseDate now st.tasks
  let st0 : BotState := { st with tasks := scan.1 }
  let r := processTriggered dispatch now st0 scan.2
  if is_user_idle r.1 now 30 then
    let idle_message := pick idle_messages
    if idle_message ≠ "" then
      (({ r.1 with proactive_messages := [], last_user_input_time := now } : BotState),
       r.2 ++ [idle_message])
    else (r.1, r.2)
  else (r.1, r.2)

/- ------------------------------------------------------------------
Event system, src/event_system.py.
------------------------------------------------------------------ -/

/-- From src/event_system.py lines 16-23. -/
inductive EventType
  | USER_INPUT
  | BOT_OUTPUT
  | SYSTEM_MESSAGE
  | BOT_THINKING
  | BOT_ACTION
  | ERROR
deriving DecidableEq, Repr

/-- From src/event_system.py lines 26-34 (dataclass ChatEvent).  `metadata`
is carried as an optional association list. -/
structure ChatEvent where
  event_id : String
  event_type : EventType
  content : String
  timestamp : Nat
  metadata : Option (List (String × String)) := none
  audio_url : Option String := none
deriving DecidableEq, Repr

/-- The outcome of awaiting one subscriber coroutine: it either returns, or
raises an exception carrying a message. -/
inductive HandlerOutcome
  | ok
  | errored (msg : String)
deriving DecidableEq, Repr

/-- A registered handler, abstracted as a name plus its behaviour on each
delivered event (whether the `await subscriber(event)` call returns or
raises). -/
structure Subscriber where
  name : String
  behavior : ChatEvent → HandlerOutcome

/-- One delivery performed by the publish loop: which handler was invoked,
with which event, and whether it returned normally (`succeeded = false`
means its exception was caught and printed, line 53). -/
structure DeliveryRecord where
  handler : String
  event : ChatEvent
  succeeded : Bool
deriving DecidableEq, Repr

/-- The subscriber loop of EventQueue.publish, src/event_system.py lines
49-53: every subscriber for the event type is awaited inside try/except in
registration order; an exception is printed and the loop moves on to the
next subscriber. -/
def dispatchAll : List Subscriber → ChatEvent → List DeliveryRecord
  | [], _ => []
  | s :: rest, e =>
    match s.behavior e with
    | HandlerOutcome.ok => ⟨s.name, e, true⟩ :: dispatchAll rest e
    | HandlerOutcome.errored _ => ⟨s.name, e, false⟩ :: dispatchAll rest e

/-- EventQueue state: the asyncio queue contents plus the `_subscribers`
dict (flattened to (type, handler) pairs; per-type registration order is
list order). -/
structure EventQueueState where
  queue : List ChatEvent
  subscribers : List (EventType × Subscriber)

/-- `self._subscribers.get(event.event_type, [])`, in registration order. -/
def subscribersFor (st : EventQueueState) (t : EventType) : List Subscriber :=
  (st.subscribers.filter (fun p => p.1 == t)).map (fun p => p.2)

/-- EventQueue.subscribe, src/event_system.py lines 55-59 (append). -/
def subscribe (st : EventQueueState) (t : EventType) (s : Subscriber) : EventQueueState :=
  { st with subscribers := st.subscribers ++ [(t, s)] }

/-- EventQueue.publish, src/event_system.py lines 44-53: put the event on
the queue, then notify every subscriber of its type.  It is a total
function - the try/except around each handler means no handler exception
reaches the publisher - returning the new state and the deliveries made. -/
def publish (st : EventQueueState) (e : ChatEvent) : EventQueueState × List DeliveryRecord :=
  ({ st with queue := st.queue ++ [e] }, dispatchAll (subscribersFor st e.event_type) e)

/-- The ChatEventSystem fields read by the auto-output loop,
src/event_system.py lines 79-82: `last_user_input_time` starts as None and
is only ever set by _handle_user_input (line 103). -/
structure EventSysState where
  auto_output_enabled : Bool
  last_user_input_time : Option Nat
  idle_threshold : Nat
deriving DecidableEq, Repr

/-- ChatEventSystem._should_auto_output, src/event_system.py lines 187-196:
False when no user input was ever recorded, else compare the elapsed time
against the idle threshold (strictly greater). -/
def should_auto_output (st : EventSysState) (now : Nat) : Bool :=
  match st.last_user_input_time with
  | none => false
  | some t => decide ((now : Int) - (t : Int) > (st.idle_threshold : Int))

/-- Message pool of ChatEventSystem._generate_auto_message, lines 198-209. -/
def auto_messages : List String :=
  ["💭 有什么我可以帮助您的吗？",
   "🤔 我在这里等您的问题...",
   "📚 您可以问我任何问题，我会尽力帮助您！",
   "⭐ 今天过得怎么样？",
   "🎯 有什么想聊的话题吗？"]

/-- ChatEventSystem._generate_auto_message always returns a choice from the
pool (never None). -/
def generate_auto_message (pick : List String → String) : Option String :=
  some (pick auto_messages)

/-- One wake-up of the _auto_output_task loop, src/event_system.py lines
175-185: skip when auto output is disabled, otherwise emit the generated
message (if truthy) when _should_auto_output says so.  Returns the
BOT_OUTPUT message contents emitted by that tick. -/
def auto_output_tick (pick : List String → String) (st : EventSysState) (now : Nat) :
    List String :=
  if st.auto_output_enabled = false then []
  else if should_auto_output st now then
    match generate_auto_message pick with
    | some message => if message ≠ "" then [message] else []
    | none => []
  else []

/- ------------------------------------------------------------------
Interleaving model for stop_proactive_mode vs. the monitor thread.

ProactiveChatBot.start_proactive_mode (src/advanced_chatbot.py lines
154-161) starts the _proactive_monitor loop on a daemon thread whose
handle is a local variable; stop_proactive_mode (lines 163-166) only sets
`is_monitoring = False` and returns - it never joins that thread.  The
thread body (lines 168-198) is `while self.is_monitoring: <scan, execute
tasks, send proactive messages>; sleep(60)`.  The model below is the
control-flow skeleton of that loop interleaved with a stop call.
------------------------------------------------------------------ -/

/-- Program counter of the monitor thread: about to test the while
condition; past the test and about to run the iteration body (scan +
execute + send); sleeping in `time.sleep(60)`; or exited. -/
inductive MonPc
  | checkCond
  | body
  | sleeping
  | done
deriving DecidableEq, Repr

/-- Joint state of the bot's `is_monitoring` flag, the monitor thread's
position, whether stop_proactive_mode has already returned, and how many
iteration bodies (trigger scans / task executions / proactive sends) ran
after it returned. -/
structure ProcState where
  is_monitoring : Bool
  pc : MonPc
  stop_returned : Bool
  execs_after_stop : Nat
deriving DecidableEq, Repr

/-- Interleaved small-step semantics of the monitor thread
(src/advanced_chatbot.py lines 168-198) and stop_proactive_mode (lines
163-166).  `stopCall` flips the flag and returns immediately - there is no
join step, because the thread handle is a local of start_proactive_mode.
`runBody` is one loop body: a check_triggers scan plus task execution; it
counts as a post-stop execution when stop has already returned. -/
inductive ProactiveStep : ProcState → ProcState → Prop
  | enterBody (s : ProcState) (hpc : s.pc = MonPc.checkCond) (hm : s.is_monitoring = true) :
      ProactiveStep s { s with pc := MonPc.body }
  | exitLoop (s : ProcState) (hpc : s.pc = MonPc.checkCond) (hm : s.is_monitoring = false) :
      ProactiveStep s { s with pc := MonPc.done }
  | runBody (s : ProcState) (hpc : s.pc = MonPc.body) :
      ProactiveStep s
        { s with
          pc := MonPc.sleeping,
          execs_after_stop := s.execs_after_stop + (if s.stop_returned then 1 else 0) }
  | wake (s : ProcState) (hpc : s.pc = MonPc.sleeping) :
      ProactiveStep s { s with pc := MonPc.checkCond }
  | stopCall (s : ProcState) (hs : s.stop_returned = false) :
      ProactiveStep s { s with is_monitoring := false, stop_returned := true }

/-- Initial state right after start_proactive_mode: monitoring on, the
thread about to test the loop condition, stop not yet called. -/
def initProc : ProcState :=
  { is_monitoring := true, pc := MonPc.checkCond, stop_returned := false,
    execs_after_stop := 0 }

/- ------------------------------------------------------------------
Statement vocabulary (spec-side predicates) and concrete scenario data.
------------------------------------------------------------------ -/

/-- Every Task field except `status` agrees - the frame predicate for
check_triggers. -/
def sameExceptStatus (a b : Task) : Prop :=
  a.id = b.id ∧ a.title = b.title ∧ a.description = b.description ∧
  a.task_type = b.task_type ∧ a.priority = b.priority ∧
  a.created_at = b.created_at ∧ a.due_date = b.due_date ∧
  a.completed_at = b.completed_at ∧ a.triggers = b.triggers ∧
  a.actions = b.actions ∧ a.recurring_pattern = b.recurring_pattern ∧
  a.context = b.context

instance (a b : Task) : Decidable (sameExceptStatus a b) := by
  unfold sameExceptStatus; infer_instance

/-- A date parser that always fails; date triggers play no role in the
concrete scenarios below. -/
def pd0 : String → Option Nat := fun _ => none

/-- The spec scenario task `{id: "t1", triggers: ["time:09:00"], actions:
["send_greeting"], status: PENDING}`. -/
def task_t1 : Task :=
  { id := "t1", title := "morning greeting", description := "",
    task_type := TaskType.DAILY, priority := TaskPriority.MEDIUM,
    status := TaskStatus.PENDING, created_at := 0,
    triggers := ["time:09:00"], actions := ["send_greeting"] }

/-- Bot state for the scenario: only `task_t1` in the store, empty dedupe
map and message queue, last user input at 08:50:15 on day 0 (so the user is
idle for more than 5 minutes but less than 30 at the 09:00:15 scan). -/
def botSt0 : BotState :=
  { tasks := [task_t1], last_action_time := [], proactive_messages := [],
    last_user_input_time := 31815 }

/-- 08:58:59 on day 0, in seconds. -/
def scanEarly : Nat := 32339

/-- 08:59:30 on day 0, in seconds. -/
def scanBefore : Nat := 32370

/-- 09:00:15 on day 0, in seconds. -/
def scanAfter : Nat := 32415

/-- A COMPLETED task with a stamped completion instant (day 0). -/
def taskCompleted : Task :=
  { id := "c1", title := "done", description := "",
    task_type := TaskType.DAILY, priority := TaskPriority.LOW,
    status := TaskStatus.COMPLETED, created_at := 0, completed_at := some 100 }

/-- A PENDING task with no completion instant. -/
def taskPending : Task :=
  { id := "p1", title := "todo", description := "",
    task_type := TaskType.SHORT_TERM, priority := TaskPriority.HIGH,
    status := TaskStatus.PENDING, created_at := 0 }

/-- A PENDING task whose only trigger is "startup". -/
def taskStartup : Task :=
  { id := "s1", title := "on boot", description := "",
    task_type := TaskType.RECURRING, priority := TaskPriority.LOW,
    status := TaskStatus.PENDING, created_at := 0, triggers := ["startup"] }

/-- A PENDING task with a malformed time trigger followed by a trigger
that matches. -/
def taskMalformed : Task :=
  { id := "m1", title := "broken trigger", description := "",
    task_type := TaskType.DAILY, priority := TaskPriority.LOW,
    status := TaskStatus.PENDING, created_at := 0,
    triggers := ["time:ab:cd", "startup"] }

/-- A subscriber that always returns normally. -/
def subOk (n : String) : Subscriber :=
  { name := n, behavior := fun _ => HandlerOutcome.ok }

/-- A subscriber whose handler always raises. -/
def subBad (n : String) : Subscriber :=
  { name := n, behavior := fun _ => HandlerOutcome.errored "boom" }

/-- Event-queue state with three BOT_OUTPUT subscribers, the middle one
failing - the spec's isolation scenario. -/
def queueSt3 : EventQueueState :=
  { queue := [],
    subscribers :=
      [(EventType.BOT_OUTPUT, subOk "first"),
       (EventType.BOT_OUTPUT, subBad "second"),
       (EventType.BOT_OUTPUT, subOk "third")] }

/-- A concrete BOT_OUTPUT event. -/
def eventW : ChatEvent :=
  { event_id := "e1", event_type := EventType.BOT_OUTPUT, content := "hello",
    timestamp := 5 }

/-- An event-system state as built by ChatEventSystem.__init__ (enabled,
never any user input, 30 second threshold). -/
def esSt0 : EventSysState :=
  { auto_output_enabled := true, last_user_input_time := none, idle_threshold := 30 }

/- ------------------------------------------------------------------
Helper lemmas.
------------------------------------------------------------------ -/

theorem dispatchAll_append (l1 l2 : List Subscriber) (e : ChatEvent) :
    dispatchAll (l1 ++ l2) e = dispatchAll l1 e ++ dispatchAll l2 e := by
  induction l1 with
  | nil => rfl
  | cons s rest ih =>
    simp only [List.cons_append, dispatchAll]
    cases s.behavior e <;> simp [ih]

theorem dispatchAll_names (l : List Subscriber) (e : ChatEvent) :
    (dispatchAll l e).map DeliveryRecord.handler = l.map Subscriber.name := by
  induction l with
  | nil => rfl
  | cons s rest ih =>
    simp only [dispatchAll]
    cases s.behavior e <;> simp [ih]

theorem dispatchAll_event (l : List Subscriber) (e : ChatEvent) :
    ∀ r ∈ dispatchAll l e, r.event = e := by
  induction l with
  | nil => intro r hr; cases hr
  | cons s rest ih =>
    intro r hr
    simp only [dispatchAll] at hr
    cases hb : s.behavior e <;> rw [hb] at hr <;>
      rcases List.mem_cons.mp hr with h | h <;> first | (subst h; rfl) | exact ih r h

theorem resetCond_iff (today : Nat) (t : Task) :
    resetCond today t = true ↔
      t.task_type = TaskType.DAILY ∧ t.status = TaskStatus.COMPLETED ∧
        ∃ c, t.completed_at = some c ∧ dayOf c < today := by
  unfold resetCond
  cases h : t.completed_at <;>
    simp [h, Bool.and_eq_true, beq_iff_eq, decide_eq_true_eq, and_assoc]

/-- One task of the reset_daily_tasks map, rephrased with the claim's
condition. -/
theorem reset_one_eq (today : Nat) (t : Task) :
    (if resetCond today t then
       { t with status := TaskStatus.PENDING, completed_at := none } else t) =
      (match t.completed_at with
       | some c =>
         if t.task_type = TaskType.DAILY ∧ t.status = TaskStatus.COMPLETED ∧ dayOf c < today
         then { t with status := TaskStatus.PENDING, completed_at := none }
         else t
       | none => t) := by
  cases h : t.completed_at with
  | none => simp [resetCond, h]
  | some c =>
    show _ = if t.task_type = TaskType.DAILY ∧ t.status = TaskStatus.COMPLETED ∧
        dayOf c < today
      then ({ t with status := TaskStatus.PENDING, completed_at := none } : Task) else t
    by_cases hc : t.task_type = TaskType.DAILY ∧ t.status = TaskStatus.COMPLETED ∧
        dayOf c < today
    · rw [if_pos ((resetCond_iff today t).mpr ⟨hc.1, hc.2.1, c, h, hc.2.2⟩), if_pos hc]
    · rw [if_neg hc, if_neg]
      intro hr
      rcases (resetCond_iff today t).mp hr with ⟨h1, h2, c2, hc2, h3⟩
      rw [h] at hc2
      cases hc2
      exact hc ⟨h1, h2, h3⟩

theorem reset_one_idem (today : Nat) (t : Task) :
    (let u := if resetCond today t then
       ({ t with status := TaskStatus.PENDING, completed_at := none } : Task) else t
     if resetCond today u then
       ({ u with status := TaskStatus.PENDING, completed_at := none } : Task) else u) =
    (if resetCond today t then
       ({ t with status := TaskStatus.PENDING, completed_at := none } : Task) else t) := by
  by_cases hr : resetCond today t = true
  · simp only [hr, if_true]
    rw [if_neg]
    simp [resetCond]
  · rw [Bool.not_eq_true] at hr
    simp only [hr, Bool.false_eq_true, if_false]

theorem lookup_insertAction_self (m : List (String × Nat)) (k : String) (v : Nat) :
    lookupAction (insertAction m k v) k = some v := by
  induction m with
  | nil => simp [insertAction, lookupAction]
  | cons p rest ih =>
    by_cases h : p.1 = k
    · simp [insertAction, h, lookupAction]
    · simp [insertAction, h, lookupAction, ih]

theorem hourOf_eq_bucket_mod (t : Nat) : hourOf t = (t / 3600) % 24 := by
  unfold hourOf
  omega

theorem invB_iff (tasks : List Task) :
    invB tasks = true ↔ ∀ t ∈ tasks, taskInv t = true := by
  simp [invB, List.all_eq_true]

theorem taskInv_activate (t : Task) (h : taskInv t = true)
    (hp : t.status = TaskStatus.PENDING) : taskInv (activateTask t) = true := by
  unfold taskInv activateTask at *
  rw [hp] at h
  simpa using h

theorem checkTriggersFires_iff (pd : String → Option Nat) (now : Nat) (t : Task) :
    checkTriggersFires pd now t = true ↔
      t.status = TaskStatus.PENDING ∧ shouldTrigger pd now t = true := by
  simp [checkTriggersFires, Bool.and_eq_true, beq_iff_eq]

theorem invB_check_triggers (pd : String → Option Nat) (now : Nat) (tasks : List Task)
    (h : invB tasks = true) : invB (check_triggers pd now tasks).1 = true := by
  rw [invB_iff] at h ⊢
  intro t ht
  rcases List.mem_map.mp ht with ⟨t0, ht0, rfl⟩
  by_cases hf : checkTriggersFires pd now t0 = true
  · rw [if_pos hf]
    exact taskInv_activate t0 (h t0 ht0) ((checkTriggersFires_iff pd now t0).mp hf).1
  · rw [if_neg hf]
    exact h t0 ht0

theorem invB_reset_daily (today : Nat) (tasks : List Task)
    (h : invB tasks = true) : invB (reset_daily_tasks today tasks) = true := by
  rw [invB_iff] at h ⊢
  intro t ht
  rcases List.mem_map.mp ht with ⟨t0, ht0, rfl⟩
  by_cases hr : resetCond today t0 = true
  · rw [if_pos hr]
    simp [taskInv]
  · rw [if_neg hr]
    exact h t0 ht0

theorem invB_update_completed (tasks : List Task) (task_id : String) (now : Nat)
    (h : invB tasks = true) :
    invB (update_task_status tasks task_id TaskStatus.COMPLETED now) = true := by
  induction tasks with
  | nil => rfl
  | cons t rest ih =>
    rw [invB_iff] at h
    have hrest : invB rest = true := by
      rw [invB_iff]; exact fun u hu => h u (List.mem_cons_of_mem t hu)
    unfold update_task_status
    by_cases hid : t.id = task_id
    · rw [if_pos hid]
      rw [invB_iff]
      intro u hu
      rcases List.mem_cons.mp hu with h1 | h1
      · subst h1; simp [taskInv]
      · exact h u (List.mem_cons_of_mem t h1)
    · rw [if_neg hid]
      have := ih hrest
      rw [invB_iff] at this ⊢
      intro u hu
      rcases List.mem_cons.mp hu with h1 | h1
      · rw [h1]; exact h t (List.mem_cons_self t rest)
      · exact this u h1

theorem invB_update_other (tasks : List Task) (task_id : String) (status : TaskStatus)
    (now : Nat) (h : invB tasks = true) (hs : status ≠ TaskStatus.COMPLETED)
    (hnc : ∀ t ∈ tasks, t.id = task_id → t.status ≠ TaskStatus.COMPLETED) :
    invB (update_task_status tasks task_id status now) = true := by
  induction tasks with
  | nil => rfl
  | cons t rest ih =>
    rw [invB_iff] at h
    have hrest : invB rest = true := by
      rw [invB_iff]; exact fun u hu => h u (List.mem_cons_of_mem t hu)
    unfold update_task_status
    by_cases hid : t.id = task_id
    · rw [if_pos hid]
      rw [invB_iff]
      intro u hu
      rcases List.mem_cons.mp hu with h1 | h1
      · subst h1
        have ht := h t (List.mem_cons_self t rest)
        have hnott := hnc t (List.mem_cons_self t rest) hid
        unfold taskInv at ht ⊢
        rw [if_neg hs]
        have hfalse : (t.status == TaskStatus.COMPLETED) = false := by
          simpa using hnott
        rw [hfalse] at ht
        have hsfalse : (status == TaskStatus.COMPLETED) = false := by
          simpa using hs
        rw [hsfalse]
        simpa using ht
      · exact h u (List.mem_cons_of_mem t h1)
    · rw [if_neg hid]
      have := ih hrest (fun u hu => hnc u (List.mem_cons_of_mem t hu))
      rw [invB_iff] at this ⊢
      intro u hu
      rcases List.mem_cons.mp hu with h1 | h1
      · rw [h1]; exact h t (List.mem_cons_self t rest)
      · exact this u h1

theorem invB_add_task (tasks : List Task) (task : Task) (gen_id : String)
    (h : invB tasks = true) (ht : taskInv task = true) :
    invB (add_task tasks task gen_id) = true := by
  rw [invB_iff] at h ⊢
  intro u hu
  unfold add_task at hu
  rcases List.mem_append.mp hu with h1 | h1
  · exact h u h1
  · rcases List.mem_singleton.mp h1 with rfl
    by_cases hid : task.id = ""
    · rw [if_pos hid]
      unfold taskInv at ht ⊢
      exact ht
    · rw [if_neg hid]
      exact ht

/- ------------------------------------------------------------------
Claim theorems.
------------------------------------------------------------------ -/

/-- C3 counterexample: a store satisfying the invariant, on which a single
update_task_status call to a non-COMPLETED status leaves a stale
`completed_at` behind, breaking the iff-invariant.  The claim that every
TaskManager operation preserves the invariant is therefore false. -/
theorem C3_counterexample :
    invB [taskCompleted] = true ∧
    invB (update_task_status [taskCompleted] "c1" TaskStatus.FAILED 200) = false := by
  decide

/-- C3 amended: the invariant (`completed_at` set iff COMPLETED) is
preserved by add_task when the added task satisfies it, by check_triggers,
by reset_daily_tasks, and by update_task_status to COMPLETED; an update to
a non-COMPLETED status preserves it only when the addressed task is not
currently COMPLETED (the source never clears `completed_at` on such an
update). -/
theorem C3_amended (tasks : List Task) (hinv : invB tasks = true) :
    (∀ task gen_id, taskInv task = true → invB (add_task tasks task gen_id) = true) ∧
    (∀ pd now, invB (check_triggers pd now tasks).1 = true) ∧
    (∀ today, invB (reset_daily_tasks today tasks) = true) ∧
    (∀ task_id now, invB (update_task_status tasks task_id TaskStatus.COMPLETED now) = true) ∧
    (∀ task_id status now, status ≠ TaskStatus.COMPLETED →
      (∀ t ∈ tasks, t.id = task_id → t.status ≠ TaskStatus.COMPLETED) →
      invB (update_task_status tasks task_id status now) = true) :=
  ⟨fun task gen_id ht => invB_add_task tasks task gen_id hinv ht,
   fun pd now => invB_check_triggers pd now tasks hinv,
   fun today => invB_reset_daily today tasks hinv,
   fun task_id now => invB_update_completed tasks task_id now hinv,
   fun task_id status now hs hnc => invB_update_other tasks task_id status now hinv hs hnc⟩

/-- Witness for C3 at a concrete one-task store. -/
theorem C3_amended_witness :
    invB (update_task_status [taskPending] "p1" TaskStatus.COMPLETED 50) = true ∧
    invB (update_task_status [taskPending] "p1" TaskStatus.CANCELLED 50) = true :=
  ⟨(C3_amended [taskPending] (by decide)).2.2.2.1 "p1" 50,
   (C3_amended [taskPending] (by decide)).2.2.2.2 "p1" TaskStatus.CANCELLED 50
     (by decide) (by decide)⟩

/-- C2: when a handler subscribed to an event's type raises, publish still
invokes every subsequent handler with the same event in registration
order, does not propagate the exception to the publisher (publish is a
total function whose delivery list covers every subscriber), and returns
normally with the event enqueued. -/
theorem C2_handler_isolation (st : EventQueueState) (e : ChatEvent)
    (pre post : List Subscriber) (s : Subscriber) (msg : String)
    (hsubs : subscribersFor st e.event_type = pre ++ s :: post)
    (hfail : s.behavior e = HandlerOutcome.errored msg) :
    (publish st e).2 =
      dispatchAll pre e ++ ⟨s.name, e, false⟩ :: dispatchAll post e ∧
    ((publish st e).2).map DeliveryRecord.handler = (pre ++ s :: post).map Subscriber.name ∧
    (∀ r ∈ (publish st e).2, r.event = e) ∧
    (publish st e).1.queue = st.queue ++ [e] := by
  refine ⟨?_, ?_, ?_, rfl⟩
  · simp only [publish, hsubs, dispatchAll_append, dispatchAll, hfail]
  · simp only [publish, hsubs, dispatchAll_names]
  · intro r hr
    simp only [publish] at hr
    exact dispatchAll_event _ _ r hr

/-- Witness for C2: three BOT_OUTPUT subscribers, the second raising; the
first and third still observe the event. -/
theorem C2_handler_isolation_witness :
    (publish queueSt3 eventW).2 =
      [⟨"first", eventW, true⟩, ⟨"second", eventW, false⟩, ⟨"third", eventW, true⟩] ∧
    ∀ r ∈ (publish queueSt3 eventW).2, r.event = eventW := by
  have h := C2_handler_isolation queueSt3 eventW [subOk "first"] [subOk "third"]
    (subBad "second") "boom" rfl rfl
  exact ⟨by rw [h.1]; rfl, h.2.2.1⟩

/-- C6: reset_daily_tasks reverts exactly the DAILY tasks that are
COMPLETED with a completion date strictly before today (back to PENDING
with `completed_at` cleared, all other tasks and fields untouched), and a
second call right afterwards is a no-op. -/
theorem C6_reset_daily (tasks : List Task) (today : Nat) :
    (reset_daily_tasks today tasks).length = tasks.length ∧
    (∀ i, (reset_daily_tasks today tasks).get? i =
      (tasks.get? i).map (fun t =>
        match t.completed_at with
        | some c =>
          if t.task_type = TaskType.DAILY ∧ t.status = TaskStatus.COMPLETED ∧
              dayOf c < today
          then { t with status := TaskStatus.PENDING, completed_at := none }
          else t
        | none => t)) ∧
    reset_daily_tasks today (reset_daily_tasks today tasks) = reset_daily_tasks today tasks := by
  refine ⟨by simp [reset_daily_tasks], ?_, ?_⟩
  · intro i
    unfold reset_daily_tasks
    rw [List.get?_map]
    cases tasks.get? i with
    | none => rfl
    | some t => simpa using reset_one_eq today t
  · unfold reset_daily_tasks
    rw [List.map_map]
    apply List.map_congr_left
    intro t _
    exact reset_one_idem today t

/-- C7: the code at the failing interleaving.  stop_proactive_mode only
flips `is_monitoring` and returns without joining the monitor thread, so
the thread can still run a full iteration body (trigger scan, task
execution, proactive send) after stop has returned: a state with a
positive post-stop execution count is reachable. -/
theorem C7_fire_after_stop :
    ∃ s : ProcState, Relation.ReflTransGen ProactiveStep initProc s ∧
      s.stop_returned = true ∧ 0 < s.execs_after_stop := by
  refine ⟨⟨false, MonPc.sleeping, true, 1⟩, ?_, rfl, by decide⟩
  have s1 : ProactiveStep initProc ⟨true, MonPc.body, false, 0⟩ :=
    ProactiveStep.enterBody initProc rfl rfl
  have s2 : ProactiveStep ⟨true, MonPc.body, false, 0⟩ ⟨false, MonPc.body, true, 0⟩ :=
    ProactiveStep.stopCall _ rfl
  have s3 : ProactiveStep ⟨false, MonPc.body, true, 0⟩ ⟨false, MonPc.sleeping, true, 1⟩ :=
    ProactiveStep.runBody _ rfl
  exact Relation.ReflTransGen.head s1
    (Relation.ReflTransGen.head s2 (Relation.ReflTransGen.head s3 Relation.ReflTransGen.refl))

/-- C9: with no user input ever recorded, _should_auto_output returns
False (without raising - it is total) and the auto-output tick emits
nothing at any time and for any message generator. -/
theorem C9_no_input_no_auto_output (st : EventSysState) (now : Nat)
    (pick : List String → String) (h : st.last_user_input_time = none) :
    should_auto_output st now = false ∧ auto_output_tick pick st now = [] := by
  have h1 : should_auto_output st now = false := by
    unfold should_auto_output
    rw [h]
  refine ⟨h1, ?_⟩
  unfold auto_output_tick
  rw [h1]
  by_cases he : st.auto_output_enabled = false <;> simp [he]

/-- Witness for C9 at the freshly initialised event system and a concrete
clock and generator. -/
theorem C9_no_input_no_auto_output_witness :
    should_auto_output esSt0 7200 = false ∧
      auto_output_tick (fun l => l.headD "") esSt0 7200 = [] :=
  C9_no_input_no_auto_output esSt0 7200 (fun l => l.headD "") rfl

/-- C5 counterexample: the "startup" trigger predicate is stateless and
matches at every evaluation, not only the first one of the process: after a
startup task is activated by a first scan and its status is set back to
PENDING through the public update_task_status operation, a later scan in
the same process activates it again. -/
theorem C5_counterexample :
    triggerMatches pd0 10 "startup" = true ∧
    triggerMatches pd0 999999 "startup" = true ∧
    (check_triggers pd0 999999
      (update_task_status (check_triggers pd0 10 [taskStartup]).1 "s1"
        TaskStatus.PENDING 20)).2 ≠ [] := by
  decide

/-- C5 amended: the startup trigger predicate is unconditionally true at
every evaluation; a pending task whose trigger is "startup" is activated by
the first scan that sees it, and - because activation moves it out of
PENDING - an immediately following scan activates nothing further. -/
theorem C5_amended :
    (∀ pd now, triggerMatches pd now "startup" = true) ∧
    (∀ (pd : String → Option Nat) n1 n2 (tasks : List Task),
      (∀ t ∈ tasks, t.triggers = ["startup"]) →
      (check_triggers pd n1 tasks).2 =
        (tasks.filter (fun t => t.status == TaskStatus.PENDING)).map activateTask ∧
      (check_triggers pd n2 (check_triggers pd n1 tasks).1).2 = []) := by
  have hstartup : ∀ (pd : String → Option Nat) (now : Nat),
      triggerMatches pd now "startup" = true := fun pd now => rfl
  refine ⟨hstartup, ?_⟩
  intro pd n1 n2 tasks ht
  have hfires : ∀ t ∈ tasks, checkTriggersFires pd n1 t = (t.status == TaskStatus.PENDING) := by
    intro t h
    unfold checkTriggersFires shouldTrigger
    rw [ht t h]
    simp [hstartup pd n1]
  constructor
  · unfold check_triggers
    rw [List.filter_congr hfires]
  · have hnone : ∀ u ∈ (check_triggers pd n1 tasks).1,
        checkTriggersFires pd n2 u = false := by
      intro u hu
      rcases List.mem_map.mp hu with ⟨t0, ht0, rfl⟩
      by_cases hf : checkTriggersFires pd n1 t0 = true
      · rw [if_pos hf]
        simp [checkTriggersFires, activateTask]
      · rw [if_neg hf]
        rw [hfires t0 ht0] at hf
        unfold checkTriggersFires
        simp only [Bool.and_eq_false_iff]
        left
        simpa using hf
    show ((check_triggers pd n1 tasks).1.filter (checkTriggersFires pd n2)).map activateTask = []
    rw [List.filter_eq_nil_iff.mpr (by intro a ha; rw [hnone a ha]; simp)]
    rfl

/-- Witness for C5 at a concrete one-task store. -/
theorem C5_amended_witness :
    (check_triggers pd0 10 [taskStartup]).2 = [activateTask taskStartup] ∧
    (check_triggers pd0 999 (check_triggers pd0 10 [taskStartup]).1).2 = [] := by
  have h := C5_amended.2 pd0 10 999 [taskStartup] (by decide)
  exact ⟨by rw [h.1]; rfl, h.2⟩

/-- C8: a trigger whose spec fails to parse (a "time:" or "date:" string
the parser rejects, which in the source raises and is swallowed by the
`except: continue`) evaluates to no match; removing such a trigger from a
task's list does not change whether the task fires, so the remaining
triggers are still evaluated and a later matching trigger still activates
the task; and check_triggers never sets any task's status to FAILED. -/
theorem C8_malformed_trigger_skip :
    (∀ pd now (bad : String), pyStartsWith bad "time:" = true → parseTimeTrigger bad = none →
      triggerMatches pd now bad = false) ∧
    (∀ (pd : String → Option Nat) now (bad : String), pyStartsWith bad "time:" = false →
      pyStartsWith bad "date:" = true → pd (pyReplace bad "date:" "") = none →
      triggerMatches pd now bad = false) ∧
    (∀ pd now (task : Task) (pre post : List String) (bad : String),
      task.triggers = pre ++ bad :: post → triggerMatches pd now bad = false →
      shouldTrigger pd now task = (pre ++ post).any (triggerMatches pd now)) ∧
    (∀ pd now (tasks : List Task), ∀ t ∈ (check_triggers pd now tasks).1,
      t.status = TaskStatus.FAILED → ∃ t0 ∈ tasks, t0.status = TaskStatus.FAILED) := by
  refine ⟨?_, ?_, ?_, ?_⟩
  · intro pd now bad h1 h2
    simp [triggerMatches, h1, h2]
  · intro pd now bad h1 h2 h3
    simp [triggerMatches, h1, h2, h3]
  · intro pd now task pre post bad htr hbad
    unfold shouldTrigger
    rw [htr]
    simp [List.any_append, hbad]
  · intro pd now tasks t ht hfail
    rcases List.mem_map.mp ht with ⟨t0, ht0, rfl⟩
    by_cases hf : checkTriggersFires pd now t0 = true
    · rw [if_pos hf] at hfail
      cases hfail
    · rw [if_neg hf] at hfail
      exact ⟨t0, ht0, hfail⟩

/-- Witness for C8: the malformed trigger "time:ab:cd" does not match, and
on a task carrying it followed by a matching "startup" trigger the scan
decision is the same as without the malformed trigger. -/
theorem C8_malformed_trigger_skip_witness :
    triggerMatches pd0 5 "time:ab:cd" = false ∧
    shouldTrigger pd0 5 taskMalformed =
      (([] ++ ["startup"]).any (triggerMatches pd0 5)) := by
  have h1 := C8_malformed_trigger_skip.1 pd0 5 "time:ab:cd" (by decide) (by decide)
  have h3 := C8_malformed_trigger_skip.2.2.1 pd0 5 taskMalformed [] ["startup"]
    "time:ab:cd" rfl h1
  exact ⟨h1, h3⟩

/-- C4: two invocations of _execute_action with the same action inside the
same clock hour of the same day yield at most one message - the second one
is stopped by the dedupe gate and returns None - whatever the dispatch
table does, provided the pre-existing dedupe entry for the action's key (if
any) was itself written at an instant with that key's hour. -/
theorem C4_dedupe (dispatch : String → Task → Option String)
    (m : List (String × Nat)) (action : String) (task1 task2 : Task) (t1 t2 : Nat)
    (hwf : ∀ v, lookupAction m (action ++ "_" ++ toString (hourOf t1)) = some v →
      hourOf v = hourOf t1)
    (hle : t1 ≤ t2) (hbucket : t1 / 3600 = t2 / 3600) :
    (execute_action dispatch (execute_action dispatch m action task1 t1).2
      action task2 t2).1 = none := by
  have hkey : action ++ "_" ++ toString (hourOf t2) = action ++ "_" ++ toString (hourOf t1) := by
    rw [hourOf_eq_bucket_mod t1, hourOf_eq_bucket_mod t2, hbucket]
  have hdiff : (t2 : Int) - (t1 : Int) < 3600 := by omega
  cases hl : lookupAction m (action ++ "_" ++ toString (hourOf t1)) with
  | none =>
    have h1 : (execute_action dispatch m action task1 t1).2 =
        insertAction m (action ++ "_" ++ toString (hourOf t1)) t1 := by
      simp [execute_action, hl]
    rw [h1]
    simp only [execute_action, hkey, lookup_insertAction_self]
    rw [if_pos hdiff]
  | some old =>
    by_cases hfirst : (t1 : Int) - (old : Int) < 3600
    · have h1 : (execute_action dispatch m action task1 t1).2 = m := by
        simp [execute_action, hl, hfirst]
      rw [h1]
      simp only [execute_action, hkey, hl]
      rw [if_pos]
      have hold := hwf old hl
      rw [hourOf_eq_bucket_mod old, hourOf_eq_bucket_mod t1] at hold
      omega
    · have h1 : (execute_action dispatch m action task1 t1).2 =
          insertAction m (action ++ "_" ++ toString (hourOf t1)) t1 := by
        simp [execute_action, hl, hfirst]
      rw [h1]
      simp only [execute_action, hkey, lookup_insertAction_self]
      rw [if_pos hdiff]

/-- Witness for C4: a fresh executor runs "send_greeting" at 09:00:00 and
again at 09:01:40 of the same day; the second call returns None. -/
theorem C4_dedupe_witness :
    (execute_action (fun _ _ => some "hi")
      (execute_action (fun _ _ => some "hi") [] "send_greeting" taskPending 32400).2
      "send_greeting" taskPending 32500).1 = none :=
  C4_dedupe (fun _ _ => some "hi") [] "send_greeting" taskPending taskPending 32400 32500
    (fun v hv => by cases hv) (by decide) (by decide)

/-- C10: check_triggers only ever changes the `status` field, and only of
the tasks it returns.  The store keeps its length; every task keeps every
field other than `status`; a task that is not pending-and-matching is
returned to the store completely unchanged; a pending task with a matching
trigger is set to ACTIVE and is exactly what the call returns. -/
theorem C10_frame (pd : String → Option Nat) (now : Nat) (tasks : List Task) :
    (check_triggers pd now tasks).1.length = tasks.length ∧
    (∀ i t0 t, tasks.get? i = some t0 → (check_triggers pd now tasks).1.get? i = some t →
      sameExceptStatus t0 t ∧
      (if t0.status = TaskStatus.PENDING ∧ shouldTrigger pd now t0 = true
       then t.status = TaskStatus.ACTIVE ∧ t ∈ (check_triggers pd now tasks).2
       else t = t0)) ∧
    (∀ t ∈ (check_triggers pd now tasks).2, t.status = TaskStatus.ACTIVE ∧
      ∃ t0 ∈ tasks, t0.status = TaskStatus.PENDING ∧ shouldTrigger pd now t0 = true ∧
        t = activateTask t0) := by
  refine ⟨by simp [check_triggers], ?_, ?_⟩
  · intro i t0 t h0 h1
    have hmap : (check_triggers pd now tasks).1.get? i =
        some (if checkTriggersFires pd now t0 then activateTask t0 else t0) := by
      show (tasks.map _).get? i = _
      rw [List.get?_map, h0]
      rfl
    rw [hmap] at h1
    have ht : t = if checkTriggersFires pd now t0 then activateTask t0 else t0 :=
      (Option.some.inj h1).symm
    subst ht
    by_cases hf : checkTriggersFires pd now t0 = true
    · rw [if_pos hf]
      have hcond := (checkTriggersFires_iff pd now t0).mp hf
      rw [if_pos hcond]
      refine ⟨⟨rfl, rfl, rfl, rfl, rfl, rfl, rfl, rfl, rfl, rfl, rfl, rfl⟩, rfl, ?_⟩
      exact List.mem_map.mpr ⟨t0, List.mem_filter.mpr ⟨List.get?_mem h0, hf⟩, rfl⟩
    · rw [if_neg hf]
      have hcond : ¬(t0.status = TaskStatus.PENDING ∧ shouldTrigger pd now t0 = true) :=
        fun hc => hf ((checkTriggersFires_iff pd now t0).mpr hc)
      rw [if_neg hcond]
      exact ⟨⟨rfl, rfl, rfl, rfl, rfl, rfl, rfl, rfl, rfl, rfl, rfl, rfl⟩, rfl⟩
  · intro t ht
    rcases List.mem_map.mp ht with ⟨t0, htf, rfl⟩
    rcases List.mem_filter.mp htf with ⟨ht0, hf⟩
    have hcond := (checkTriggersFires_iff pd now t0).mp hf
    exact ⟨rfl, t0, ht0, hcond.1, hcond.2, rfl⟩

/-- Witness for C10 on the scenario store at the 09:00:15 scan: the
activated task differs from the original only in its status. -/
theorem C10_frame_witness :
    sameExceptStatus task_t1 (activateTask task_t1) ∧
      (activateTask task_t1).status = TaskStatus.ACTIVE := by
  have h := (C10_frame pd0 scanAfter [task_t1]).2.1 0 task_t1 (activateTask task_t1)
    rfl (by decide)
  have h2 := h.2
  rw [if_pos (⟨rfl, by decide⟩ : task_t1.status = TaskStatus.PENDING ∧
    shouldTrigger pd0 scanAfter task_t1 = true)] at h2
  exact ⟨h.1, h2.1⟩

/-- C1 counterexample: the source's time trigger uses a symmetric ±60 s
tolerance (`abs((now - trigger_time).total_seconds()) <= 60`), so a scan at
08:59:30 - 30 seconds before 09:00 - already activates the task, contrary
to the claim that it does not. -/
theorem C1_counterexample :
    (check_triggers pd0 scanBefore [task_t1]).2 = [activateTask task_t1] ∧
    (activateTask task_t1).status = TaskStatus.ACTIVE := by
  decide

/-- C1 amended: a scan more than 60 seconds before 09:00 (08:58:59) does
not activate the task and the monitor iteration produces no message; any
scan within the ±60 s tolerance - 08:59:30 as well as 09:00:15 - activates
it; at the 09:00:15 scan the task becomes ACTIVE and the monitor iteration
produces exactly one proactive bot-output message for it. -/
theorem C1_amended (pd : String → Option Nat) (pick : List String → String)
    (healthExec : String → Task → Option String) :
    (check_triggers pd scanEarly [task_t1]).2 = [] ∧
    (check_triggers pd scanEarly [task_t1]).1 = [task_t1] ∧
    (check_triggers pd scanBefore [task_t1]).2 = [activateTask task_t1] ∧
    (check_triggers pd scanAfter [task_t1]).2 = [activateTask task_t1] ∧
    (activateTask task_t1).status = TaskStatus.ACTIVE ∧
    (proactive_monitor_step pd (dispatchAction pick healthExec) pick botSt0 scanAfter).2.length
      = 1 ∧
    (proactive_monitor_step pd (dispatchAction pick healthExec) pick botSt0 scanEarly).2
      = [] := by
  refine ⟨rfl, rfl, rfl, rfl, rfl, ?_, rfl⟩
  have hi : String.intercalate " " [pick send_greeting_messages] =
      pick send_greeting_messages := rfl
  by_cases hg : pick send_greeting_messages = ""
  · simp [proactive_monitor_step, check_triggers, checkTriggersFires, shouldTrigger,
      triggerMatches, parseTimeTrigger, processTriggered, execute_task, execute_actions,
      execute_action, dispatchAction, lookupAction, insertAction, is_user_idle,
      update_task_status, botSt0, task_t1, activateTask, pyStartsWith, pyContains,
      pyReplace, replaceFuel, pySplit, splitChar, pyToNat, List.isPrefixOf,
      scanAfter, midnightOf, hourOf, dayOf, minuteOf, hi, hg]
  · simp [proactive_monitor_step, check_triggers, checkTriggersFires, shouldTrigger,
      triggerMatches, parseTimeTrigger, processTriggered, execute_task, execute_actions,
      execute_action, dispatchAction, lookupAction, insertAction, is_user_idle,
      update_task_status, botSt0, task_t1, activateTask, pyStartsWith, pyContains,
      pyReplace, replaceFuel, pySplit, splitChar, pyToNat, List.isPrefixOf,
      scanAfter, midnightOf, hourOf, dayOf, minuteOf, hi, hg]

end ChatAgent
